import Mathlib

/-!
Verification of the HOS compliance rule engine
(`src/backend/core_utils/hos_compliance.py`).

Modelling conventions (shallow embedding):

* `datetime` values are modelled as rational numbers of seconds since an
  arbitrary epoch (`ℚ`); a `timedelta` is the difference of two such numbers.
* Python `Decimal` values are modelled as exact rationals.  The source
  computes hours as `Decimal(str(duration.total_seconds() / 3600))`, i.e. the
  decimal rendering of a binary double.  All concrete inputs used in the
  theorems below have durations whose double computation is exact (whole
  hours, or dyadic fractions such as 2025 s = 0.5625 h), so on those inputs
  the rational model agrees bit-for-bit with the source; universally
  quantified theorems range over all rationals, a superset of the values the
  source can produce.
* Python exceptions are modelled with `Except PyError`: the source raises
  `TypeError` when it subtracts `None` from a `datetime`, compares `None`
  with a `datetime`, or subtracts a `float` from a `Decimal` (the latter is
  unsupported in Python and is the reason several violation constructors can
  never complete); it raises `ZeroDivisionError` when `days_span` is zero in
  the analytics.
* Human-readable `description` strings interpolate float renderings of
  numbers; no property depends on them, so the `description` field is
  omitted from the `Violation` model.  All other string fields (violation
  types, workflow actions, notes, risk factors, compliance impact) are kept
  verbatim.
-/

/- Batteries marks the rational-number operations irreducible, which blocks
evaluation of the engine model inside `decide`/`rfl` proofs; restore the
default reducibility for this file. -/
attribute [local semireducible] Rat.add Rat.sub Rat.mul Rat.inv Rat.ofScientific

deriving instance DecidableEq for Except

namespace HOS

/-- `class CycleType(Enum)`. -/
inductive CycleType
  | seventy_eight
  | sixty_seven
  | thirty_four_hour
deriving DecidableEq

/-- `class DutyStatus(Enum)`. -/
inductive DutyStatus
  | off_duty
  | sleeper_berth
  | driving
  | on_duty_not_driving
deriving DecidableEq

/-- `class ViolationSeverity(Enum)`. -/
inductive ViolationSeverity
  | minor
  | major
  | critical
deriving DecidableEq

/-- `class ViolationStatus(Enum)`. -/
inductive ViolationStatus
  | pending
  | in_review
  | resolved
  | disputed
  | escalated
deriving DecidableEq

/-- `class TeamDrivingRole(Enum)`. -/
inductive TeamDrivingRole
  | driver_1
  | driver_2
  | relief_driver
deriving DecidableEq

/-- Python exceptions that the engine can actually raise. -/
inductive PyError
  | typeError
  | zeroDivisionError
deriving DecidableEq

/-- `@dataclass HOSLimits`; `Decimal` fields as `ℚ`. -/
structure HOSLimits where
  max_driving_hours : ℚ
  max_on_duty_hours : ℚ
  min_off_duty_hours : ℚ
  min_30_min_break : Bool
  min_sleeper_berth_hours : ℚ
  cycle_hours : ℚ
  cycle_days : ℚ
  max_consecutive_driving_hours : ℚ := 11
  min_34_hour_restart_hours : ℚ := 34
deriving DecidableEq

/-- A log-entry dict `{'start_time', 'end_time', 'duty_status'}`; timestamps
in seconds, `end_time` possibly `None`. -/
structure LogEntry where
  start_time : ℚ
  end_time : Option ℚ
  duty_status : DutyStatus
deriving DecidableEq

/-- `@dataclass SleeperBerthPeriod`. -/
structure SleeperBerthPeriod where
  start_time : ℚ
  end_time : Option ℚ
  duration_hours : ℚ
  is_valid_for_restart : Bool := false
  consecutive_hours : ℚ := 0
  split_berth_period : Bool := false
deriving DecidableEq

/-- `@dataclass Violation`; `duration_over` is a timedelta in seconds; the
`description` string (float rendering of numbers) is omitted, see header. -/
structure Violation where
  violation_type : String
  severity : ViolationSeverity
  occurred_at : ℚ
  duration_over : Option ℚ := none
  status : ViolationStatus := ViolationStatus.pending
  resolution_notes : String := ""
  resolved_by : Option String := none
  resolved_at : Option ℚ := none
  escalation_level : ℤ := 0
  requires_immediate_action : Bool := false
  compliance_impact : String := ""
deriving DecidableEq

/-- `@dataclass TeamDrivingInfo`. -/
structure TeamDrivingInfo where
  team_id : String
  driver_1_id : String
  driver_2_id : String
  current_driver : TeamDrivingRole
  handoff_time : Option ℚ := none
  handoff_location : String := ""
  coordination_notes : String := ""
deriving DecidableEq

/-- `@dataclass ComplianceAnalytics`; the two counting dicts are association
lists in key-insertion order. -/
structure ComplianceAnalytics where
  total_violations : ℕ := 0
  violations_by_type : List (String × ℕ) := []
  violations_by_severity : List (String × ℕ) := []
  compliance_score : ℚ := 100
  cycle_efficiency : ℚ := 0
  restart_frequency : ℚ := 0
  average_daily_hours : ℚ := 0
  risk_factors : List String := []
deriving DecidableEq

/-- The dict built by `_get_advanced_restart_recommendations`; the
`recommendations` list is modelled by the `type` tags of its elements, and
the constant `sleeper_berth_options` list by its two `type` tags. -/
structure RestartRecommendations where
  last_restart : Option ℚ := none
  time_since_restart_hours : Option ℚ := none
  current_cycle_hours : ℚ := 0
  cycle_limit : ℚ
  cycle_progress_percent : ℚ := 0
  recommendation_types : List String := []
  optimal_restart_time : Option ℚ := none
  sleeper_berth_option_types : List String := ["single_period", "split_period"]
deriving DecidableEq

/-- `@dataclass HOSStatus`. -/
structure HOSStatus where
  can_drive : Bool
  can_be_on_duty : Bool
  needs_rest : Bool
  hours_used_this_cycle : ℚ
  hours_available : ℚ
  consecutive_off_duty_hours : ℚ
  last_30_min_break : Option ℚ
  violations : List Violation
  cycle_type : CycleType
  cycle_start_date : ℚ
  sleeper_berth_periods : List SleeperBerthPeriod
  team_driving_info : Option TeamDrivingInfo
  compliance_analytics : ComplianceAnalytics
  restart_recommendations : RestartRecommendations
deriving DecidableEq

/-- `AdvancedHOSComplianceEngine.HOS_LIMITS`. -/
def HOS_LIMITS : CycleType → HOSLimits
  | CycleType.seventy_eight =>
    { max_driving_hours := 11, max_on_duty_hours := 14, min_off_duty_hours := 10,
      min_30_min_break := true, min_sleeper_berth_hours := 8,
      cycle_hours := 70, cycle_days := 8 }
  | CycleType.sixty_seven =>
    { max_driving_hours := 11, max_on_duty_hours := 14, min_off_duty_hours := 10,
      min_30_min_break := true, min_sleeper_berth_hours := 8,
      cycle_hours := 60, cycle_days := 7 }
  | CycleType.thirty_four_hour =>
    { max_driving_hours := 11, max_on_duty_hours := 14, min_off_duty_hours := 34,
      min_30_min_break := true, min_sleeper_berth_hours := 8,
      cycle_hours := 70, cycle_days := 8 }

/-! ### Stable sorting by a rational key

Python's `sorted(..., key=...)` is a stable ascending sort; insertion sort
with a `≤` test on the key is stable in the same sense. -/

def insertSortedBy {α : Type} (key : α → ℚ) (e : α) : List α → List α
  | [] => [e]
  | x :: xs => if key e ≤ key x then e :: x :: xs else x :: insertSortedBy key e xs

def sortBy {α : Type} (key : α → ℚ) : List α → List α
  | [] => []
  | x :: xs => insertSortedBy key x (sortBy key xs)

/-! ### Cycle-start computation (`_calculate_advanced_cycle_start`) -/

/-- Inner loop of `_is_valid_34_hour_restart`: scan `all_entries` for an
on-duty interval strictly nested in `(st, en)`.  The source evaluates
`entry['start_time'] > start_time and entry['end_time'] < end_time and ...`
left to right, so an entry with `start > st` but `end_time = None` raises
`TypeError` (`None < datetime`). -/
def hasNestedOnDuty (st en : ℚ) : List LogEntry → Except PyError Bool
  | [] => Except.ok false
  | e :: rest =>
    if e.start_time > st then
      match e.end_time with
      | none => Except.error PyError.typeError
      | some ee =>
        if ee < en ∧ (e.duty_status = DutyStatus.driving ∨
            e.duty_status = DutyStatus.on_duty_not_driving) then
          Except.ok true
        else
          hasNestedOnDuty st en rest
    else
      hasNestedOnDuty st en rest

/-- `_is_valid_34_hour_restart(off_duty_entry, all_entries)`. -/
def is_valid_34_hour_restart (off : LogEntry) (all_entries : List LogEntry) :
    Except PyError Bool :=
  match off.end_time with
  | none => Except.ok false
  | some en =>
    if en - off.start_time < 34 * 3600 then
      Except.ok false
    else
      (hasNestedOnDuty off.start_time en all_entries).map (fun b => !b)

/-- The `for entry in reversed(log_entries)` loop of
`_calculate_advanced_cycle_start`: the scanned list is passed already
reversed; returns the `end_time` of the first valid 34-hour restart found. -/
def findRestart (all_entries : List LogEntry) : List LogEntry → Except PyError (Option ℚ)
  | [] => Except.ok none
  | e :: rest =>
    if e.duty_status = DutyStatus.off_duty then
      match e.end_time with
      | none => findRestart all_entries rest
      | some en => do
        let valid ← is_valid_34_hour_restart e all_entries
        if valid then Except.ok (some en) else findRestart all_entries rest
    else
      findRestart all_entries rest

/-- `_calculate_advanced_cycle_start(log_entries, current_time)`; the final
`if cycle_start < max_cycle_start` clamp is a `max`. -/
def calcCycleStart (limits : HOSLimits) (entries : List LogEntry) (now : ℚ) :
    Except PyError ℚ :=
  match entries with
  | [] => Except.ok (now - limits.cycle_days * 86400)
  | _ :: _ => do
    let found ← findRestart entries entries.reverse
    let cycle_start := found.getD (now - limits.cycle_days * 86400)
    Except.ok (max cycle_start (now - limits.cycle_days * 86400))

/-! ### Sleeper-berth periods (`_calculate_sleeper_berth_periods`,
`_validate_split_sleeper_berth`) -/

/-- The construction loop of `_calculate_sleeper_berth_periods`: one period
per `SLEEPER_BERTH` entry, open entries measured up to `current_time`. -/
def buildSleeperPeriods (limits : HOSLimits) (now : ℚ) : List LogEntry → List SleeperBerthPeriod
  | [] => []
  | e :: rest =>
    if e.duty_status = DutyStatus.sleeper_berth then
      let dur : ℚ := match e.end_time with
        | some en => en - e.start_time
        | none => now - e.start_time
      let hours : ℚ := dur / 3600
      { start_time := e.start_time, end_time := e.end_time,
        duration_hours := hours,
        is_valid_for_restart := decide (hours ≥ limits.min_34_hour_restart_hours),
        consecutive_hours := hours,
        split_berth_period := false } :: buildSleeperPeriods limits now rest
    else
      buildSleeperPeriods limits now rest

/-- The split test of `_validate_split_sleeper_berth` for a pair whose left
end time `pe` is known: gap ≤ 24 h, each leg ≥ 2 h, combined ≥ 8 h. -/
def splitCond (pe : ℚ) (p q : SleeperBerthPeriod) : Bool :=
  decide (q.start_time - pe ≤ 24 * 3600) &&
  decide (p.duration_hours ≥ 2) && decide (q.duration_hours ≥ 2) &&
  decide (p.duration_hours + q.duration_hours ≥ 8)

/-- The marking loop of `_validate_split_sleeper_berth`, head passed
separately so the recursion is structural: each adjacent pair of the sorted
list is tested; `next.start_time - current.end_time` raises `TypeError`
when the current period has no end time; a qualifying pair has both its
periods flagged in place. -/
def markSplitAux (p : SleeperBerthPeriod) : List SleeperBerthPeriod →
    Except PyError (List SleeperBerthPeriod)
  | [] => Except.ok [p]
  | q :: rest =>
    match p.end_time with
    | none => Except.error PyError.typeError
    | some pe =>
      if splitCond pe p q then
        (markSplitAux { q with split_berth_period := true } rest).map
          (fun r => { p with split_berth_period := true } :: r)
      else
        (markSplitAux q rest).map (fun r => p :: r)

def markSplitPairs : List SleeperBerthPeriod → Except PyError (List SleeperBerthPeriod)
  | [] => Except.ok []
  | p :: rest => markSplitAux p rest

/-- `_validate_split_sleeper_berth(sleeper_periods)`.  The source mutates the
period objects and returns the original list; the model returns the sorted
list carrying the marks.  In every use by the engine the input is derived
from entries already sorted by start time, so the period list is itself
sorted by start time and the two orders coincide. -/
def validateSplitSleeperBerth (ps : List SleeperBerthPeriod) :
    Except PyError (List SleeperBerthPeriod) :=
  if ps.length < 2 then Except.ok ps
  else markSplitPairs (sortBy (fun p => p.start_time) ps)

/-- `_calculate_sleeper_berth_periods(log_entries, current_time)`. -/
def calcSleeperPeriods (limits : HOSLimits) (entries : List LogEntry) (now : ℚ) :
    Except PyError (List SleeperBerthPeriod) :=
  validateSplitSleeperBerth (buildSleeperPeriods limits now entries)

/-! ### Hour totals and break anchors -/

/-- `_calculate_cycle_hours(cycle_entries)`: sum of `Driving` and
`OnDutyNotDriving` durations in hours; `end_time - start_time` raises
`TypeError` when `end_time` is `None`. -/
def calcCycleHours : List LogEntry → Except PyError ℚ
  | [] => Except.ok 0
  | e :: rest =>
    if e.duty_status = DutyStatus.driving ∨
        e.duty_status = DutyStatus.on_duty_not_driving then
      match e.end_time with
      | none => Except.error PyError.typeError
      | some en => (calcCycleHours rest).map (fun h => (en - e.start_time) / 3600 + h)
    else
      calcCycleHours rest

/-- `_get_last_30_min_break(log_entries, current_time)`: the scan is over the
reversed list, so this helper takes the list already reversed. -/
def lastBreakRev : List LogEntry → Option ℚ
  | [] => none
  | e :: rest =>
    match e.end_time with
    | some en =>
      if e.duty_status = DutyStatus.off_duty ∧ en - e.start_time ≥ 1800 then some en
      else lastBreakRev rest
    | none => lastBreakRev rest

def getLast30MinBreak (entries : List LogEntry) : Option ℚ :=
  lastBreakRev entries.reverse

/-- First branch of `_calculate_driving_hours_since_break` (no break found):
sum every driving entry's duration; only driving entries' `end_time` is
touched. -/
def sumDriving : List LogEntry → Except PyError ℚ
  | [] => Except.ok 0
  | e :: rest =>
    if e.duty_status = DutyStatus.driving then
      match e.end_time with
      | none => Except.error PyError.typeError
      | some en => (sumDriving rest).map (fun h => (en - e.start_time) / 3600 + h)
    else
      sumDriving rest

/-- Second branch of `_calculate_driving_hours_since_break`: sum driving
entries starting at or after the cutoff. -/
def sumDrivingSince (cutoff : ℚ) : List LogEntry → Except PyError ℚ
  | [] => Except.ok 0
  | e :: rest =>
    if e.duty_status = DutyStatus.driving ∧ e.start_time ≥ cutoff then
      match e.end_time with
      | none => Except.error PyError.typeError
      | some en => (sumDrivingSince cutoff rest).map (fun h => (en - e.start_time) / 3600 + h)
    else
      sumDrivingSince cutoff rest

/-- `_calculate_driving_hours_since_break(log_entries, current_time)`: if no
≥ 30 min off-duty break exists, every driving entry counts; otherwise only
those starting at or after the break's end. -/
def calcDrivingHoursSinceBreak (entries : List LogEntry) : Except PyError ℚ :=
  match getLast30MinBreak entries with
  | none => sumDriving entries
  | some c => sumDrivingSince c entries

/-- The reverse scan of `_calculate_on_duty_hours_since_break` for the last
≥ 10 h off-duty period (list passed already reversed). -/
def lastTenHourBreakRev : List LogEntry → Option ℚ
  | [] => none
  | e :: rest =>
    match e.end_time with
    | some en =>
      if e.duty_status = DutyStatus.off_duty ∧ en - e.start_time ≥ 10 * 3600 then some en
      else lastTenHourBreakRev rest
    | none => lastTenHourBreakRev rest

def sumOnDutyFrom (cutoff : ℚ) : List LogEntry → Except PyError ℚ
  | [] => Except.ok 0
  | e :: rest =>
    if (e.duty_status = DutyStatus.driving ∨
        e.duty_status = DutyStatus.on_duty_not_driving) ∧ e.start_time ≥ cutoff then
      match e.end_time with
      | none => Except.error PyError.typeError
      | some en => (sumOnDutyFrom cutoff rest).map (fun h => (en - e.start_time) / 3600 + h)
    else
      sumOnDutyFrom cutoff rest

/-- `_calculate_on_duty_hours_since_break(cycle_entries, current_time)`: the
anchor is the last ≥ 10 h off-duty end, with fallback `now - 14 h`. -/
def calcOnDutyHoursSinceBreak (entries : List LogEntry) (now : ℚ) : Except PyError ℚ :=
  let cutoff := (lastTenHourBreakRev entries.reverse).getD (now - 14 * 3600)
  sumOnDutyFrom cutoff entries

/-- `_calculate_consecutive_off_duty_hours(log_entries, current_time)`
(reverse scan for the last off-duty entry passed already reversed). -/
def lastOffDutyRev : List LogEntry → Option LogEntry
  | [] => none
  | e :: rest =>
    if e.duty_status = DutyStatus.off_duty then some e else lastOffDutyRev rest

def calcConsecutiveOffDuty (entries : List LogEntry) (now : ℚ) : ℚ :=
  match lastOffDutyRev entries.reverse with
  | some e =>
    match e.end_time with
    | some en => (now - en) / 3600
    | none => 0
  | none => 0

/-! ### Per-rule violation checkers (`_check_*_rule`)

The default rule registry (`HOSRuleEngine._load_default_rules`) supplies the
severities and the float parameters used below; dict insertion order fixes
the rule evaluation order.  Parameters are passed explicitly so that each
checker mirrors its source function. -/

/-- `_check_driving_limit_rule`: for each over-limit `Driving` entry the
source builds a `Violation` whose `duration_over=timedelta(hours=float(hours
- max_hours))` subtracts the float parameter `11.0` from a `Decimal`, which
Python rejects with `TypeError`; so the check raises instead of returning
the violation.  A `None` end time also raises (`None - datetime`). -/
def checkDrivingLimitRule (max_hours : ℚ) : List LogEntry → Except PyError (List Violation)
  | [] => Except.ok []
  | e :: rest =>
    if e.duty_status = DutyStatus.driving then
      match e.end_time with
      | none => Except.error PyError.typeError
      | some en =>
        if (en - e.start_time) / 3600 > max_hours then
          Except.error PyError.typeError
        else
          checkDrivingLimitRule max_hours rest
    else
      checkDrivingLimitRule max_hours rest

/-- `_check_on_duty_limit_rule`: same `Decimal - float` `TypeError` as the
driving rule, over `Driving` and `OnDutyNotDriving` entries. -/
def checkOnDutyLimitRule (max_hours : ℚ) : List LogEntry → Except PyError (List Violation)
  | [] => Except.ok []
  | e :: rest =>
    if e.duty_status = DutyStatus.driving ∨
        e.duty_status = DutyStatus.on_duty_not_driving then
      match e.end_time with
      | none => Except.error PyError.typeError
      | some en =>
        if (en - e.start_time) / 3600 > max_hours then
          Except.error PyError.typeError
        else
          checkOnDutyLimitRule max_hours rest
    else
      checkOnDutyLimitRule max_hours rest

/-- `_check_30_min_break_rule` (threshold 8 h, severity major; the
`min_break` parameter 0.5 feeds only the elided description string). -/
def check30MinBreakRule (break_threshold : ℚ) (_min_break : ℚ)
    (cycle_entries : List LogEntry) (now : ℚ) : Except PyError (List Violation) := do
  let driving_hours ← calcDrivingHoursSinceBreak cycle_entries
  if driving_hours > break_threshold then
    Except.ok [{ violation_type := "no_30_min_break",
                 severity := ViolationSeverity.major,
                 occurred_at := now,
                 requires_immediate_action := true,
                 compliance_impact :=
                   "Driver must take 30-minute break before continuing to drive" }]
  else
    Except.ok []

/-- `_check_cycle_hours_rule` (float parameter `cycle_hours=70.0` for every
cycle type): when the total exceeds the limit the description f-string
computes `total_hours - cycle_hours`, again `Decimal - float`, raising
`TypeError` instead of producing the `cycle_hours_exceeded` violation. -/
def checkCycleHoursRule (cycle_hours : ℚ) (cycle_entries : List LogEntry) :
    Except PyError (List Violation) := do
  let total ← calcCycleHours cycle_entries
  if total > cycle_hours then
    Except.error PyError.typeError
  else
    Except.ok []

/-- The entry loop of `_check_34_hour_restart_rule`: every off-duty entry
with an end time and duration under 34 h is reported (severity critical).
The preceding sleeper-period loop of the source only computes an unused
local, so it is omitted. -/
def check34HourRestartRule (min_hours : ℚ) : List LogEntry → List Violation
  | [] => []
  | e :: rest =>
    match e.end_time with
    | some en =>
      if e.duty_status = DutyStatus.off_duty ∧ en - e.start_time < min_hours * 3600 then
        { violation_type := "invalid_34_hour_restart",
          severity := ViolationSeverity.critical,
          occurred_at := e.start_time,
          compliance_impact := "Restart attempt invalid, cycle continues" }
          :: check34HourRestartRule min_hours rest
      else
        check34HourRestartRule min_hours rest
    | none => check34HourRestartRule min_hours rest

/-- `_check_sleeper_berth_split_rule` (severity minor): inspects only the
first two flagged periods. -/
def checkSleeperBerthSplitRule (min_first min_second : ℚ)
    (sleeper : List SleeperBerthPeriod) : List Violation :=
  match sleeper.filter (fun p => p.split_berth_period) with
  | p1 :: p2 :: _ =>
    (if p1.duration_hours < min_first then
      [{ violation_type := "invalid_split_berth_first",
         severity := ViolationSeverity.minor,
         occurred_at := p1.start_time,
         compliance_impact := "Split berth period invalid" }]
    else []) ++
    (if p2.duration_hours < min_second then
      [{ violation_type := "invalid_split_berth_second",
         severity := ViolationSeverity.minor,
         occurred_at := p2.start_time,
         compliance_impact := "Split berth period invalid" }]
    else [])
  | _ => []

/-- `_check_advanced_violations`: all six default rules are enabled; they run
in registry (dict insertion) order and their violations are concatenated. -/
def checkAdvancedViolations (cycle_entries : List LogEntry) (now : ℚ)
    (sleeper : List SleeperBerthPeriod) : Except PyError (List Violation) := do
  let v1 ← checkDrivingLimitRule 11 cycle_entries
  let v2 ← checkOnDutyLimitRule 14 cycle_entries
  let v3 ← check30MinBreakRule 8 (1 / 2) cycle_entries now
  let v4 ← checkCycleHoursRule 70 cycle_entries
  let v5 := check34HourRestartRule 34 cycle_entries
  let v6 := checkSleeperBerthSplitRule 2 2 sleeper
  Except.ok (v1 ++ v2 ++ v3 ++ v4 ++ v5 ++ v6)

/-! ### Eligibility decisions -/

/-- `_can_drive_advanced(cycle_entries, current_time, violations,
team_driving_info)`; the early returns happen before the hour totals are
computed. -/
def canDriveAdvanced (cycle_entries : List LogEntry) (now : ℚ)
    (violations : List Violation) (team : Option TeamDrivingInfo) :
    Except PyError Bool :=
  if violations.any (fun v => v.severity == ViolationSeverity.critical) then
    Except.ok false
  else if (match team with
           | some t => t.current_driver != TeamDrivingRole.driver_1
           | none => false : Bool) then
    Except.ok false
  else do
    let driving_hours ← calcDrivingHoursSinceBreak cycle_entries
    if driving_hours ≥ 11 then
      Except.ok false
    else do
      let on_duty_hours ← calcOnDutyHoursSinceBreak cycle_entries now
      if on_duty_hours ≥ 14 then Except.ok false else Except.ok true

/-- `_can_be_on_duty_advanced` (the `team_driving_info` parameter is received
but never read by the source). -/
def canBeOnDutyAdvanced (cycle_entries : List LogEntry) (now : ℚ)
    (violations : List Violation) (_team : Option TeamDrivingInfo) : Except PyError Bool :=
  if violations.any (fun v => v.severity == ViolationSeverity.critical) then
    Except.ok false
  else do
    let on_duty_hours ← calcOnDutyHoursSinceBreak cycle_entries now
    if on_duty_hours ≥ 14 then Except.ok false else Except.ok true

/-- `_needs_rest_advanced`. -/
def needsRestAdvanced (cycle_entries : List LogEntry) (now : ℚ)
    (violations : List Violation) : Except PyError Bool :=
  if violations.any (fun v => v.severity == ViolationSeverity.major ||
      v.severity == ViolationSeverity.critical) then
    Except.ok true
  else do
    let driving_hours ← calcDrivingHoursSinceBreak cycle_entries
    let on_duty_hours ← calcOnDutyHoursSinceBreak cycle_entries now
    if driving_hours ≥ 10 ∨ on_duty_hours ≥ 13 then Except.ok true
    else Except.ok false

/-! ### Compliance analytics (`_calculate_compliance_analytics`) -/

/-- Bump a key in an association list kept in key-insertion order (how a
Python dict counts occurrences). -/
def bumpKey (key : String) : List (String × ℕ) → List (String × ℕ)
  | [] => [(key, 1)]
  | (k, n) :: rest =>
    if k = key then (k, n + 1) :: rest else (k, n) :: bumpKey key rest

/-- `ViolationSeverity.value` strings used as dict keys. -/
def severityValue : ViolationSeverity → String
  | ViolationSeverity.minor => "minor"
  | ViolationSeverity.major => "major"
  | ViolationSeverity.critical => "critical"

/-- Penalty points per violation severity. -/
def penaltyOf : ViolationSeverity → ℚ
  | ViolationSeverity.critical => 20
  | ViolationSeverity.major => 10
  | ViolationSeverity.minor => 5

/-- Total hours of entries with an end time (the efficiency sums guard with
`if entry['end_time']`). -/
def sumClosedHours : List LogEntry → ℚ
  | [] => 0
  | e :: rest =>
    (match e.end_time with
     | some en => (en - e.start_time) / 3600
     | none => 0) + sumClosedHours rest

def sumClosedDrivingHours : List LogEntry → ℚ
  | [] => 0
  | e :: rest =>
    (match e.end_time with
     | some en =>
       if e.duty_status = DutyStatus.driving then (en - e.start_time) / 3600 else 0
     | none => 0) + sumClosedDrivingHours rest

/-- The daily-hours accumulation (`daily_hours[date] += ...`) does not guard
`end_time`, so a `None` end raises `TypeError` here. -/
def sumAllHoursStrict : List LogEntry → Except PyError ℚ
  | [] => Except.ok 0
  | e :: rest =>
    match e.end_time with
    | none => Except.error PyError.typeError
    | some en => (sumAllHoursStrict rest).map (fun h => (en - e.start_time) / 3600 + h)

/-- Count of ≥ 34 h off-duty entries (`restart_count`). -/
def countRestarts : List LogEntry → ℕ
  | [] => 0
  | e :: rest =>
    (match e.end_time with
     | some en =>
       if e.duty_status = DutyStatus.off_duty ∧ en - e.start_time ≥ 34 * 3600 then 1 else 0
     | none => 0) + countRestarts rest

/-- Number of distinct calendar days among the entry start times
(`entry['start_time'].date()` modelled as the floor of the epoch day). -/
def distinctDayCount (entries : List LogEntry) : ℕ :=
  ((entries.map (fun e => Rat.floor (e.start_time / 86400))).dedup).length

/-- The four independent risk-factor checks, in source order. -/
def riskFactors (score : ℚ) (total : ℕ) (freq avg : ℚ) : List String :=
  (if score < 80 then ["Low compliance score"] else []) ++
  (if total > 5 then ["High violation count"] else []) ++
  (if freq > 2 then ["Frequent restarts"] else []) ++
  (if avg > 12 then ["High daily hours"] else [])

/-- `_calculate_compliance_analytics(log_entries, violations, current_time)`.
`days_span = (current_time - log_entries[0]['start_time']).days + 1`
(`timedelta.days` floors); a zero span raises `ZeroDivisionError` before the
unguarded daily-hours loop can raise `TypeError`. -/
def calcComplianceAnalytics (entries : List LogEntry) (violations : List Violation)
    (now : ℚ) : Except PyError ComplianceAnalytics :=
  let by_type := violations.foldl (fun acc v => bumpKey v.violation_type acc) []
  let by_sev := violations.foldl (fun acc v => bumpKey (severityValue v.severity) acc) []
  let penalty := violations.foldl (fun acc v => acc + penaltyOf v.severity) 0
  let score := max 0 (100 - penalty)
  match entries with
  | [] =>
    Except.ok { total_violations := violations.length,
                violations_by_type := by_type, violations_by_severity := by_sev,
                compliance_score := score, cycle_efficiency := 0,
                restart_frequency := 0, average_daily_hours := 0,
                risk_factors := riskFactors score violations.length 0 0 }
  | e0 :: _ =>
    let th := sumClosedHours entries
    let eff := if th > 0 then sumClosedDrivingHours entries / th * 100 else 0
    let days_span : ℤ := Rat.floor ((now - e0.start_time) / 86400) + 1
    if days_span = 0 then Except.error PyError.zeroDivisionError
    else
      let freq : ℚ := (countRestarts entries : ℚ) / (days_span : ℚ) * 7
      (sumAllHoursStrict entries).map (fun total_all =>
        let avg := total_all / (distinctDayCount entries : ℚ)
        { total_violations := violations.length,
          violations_by_type := by_type, violations_by_severity := by_sev,
          compliance_score := score, cycle_efficiency := eff,
          restart_frequency := freq, average_daily_hours := avg,
          risk_factors := riskFactors score violations.length freq avg })

/-! ### Restart recommendations (`_get_advanced_restart_recommendations`) -/

def getRestartRecommendations (limits : HOSLimits) (entries : List LogEntry)
    (now : ℚ) (sleeper : List SleeperBerthPeriod) :
    Except PyError RestartRecommendations := do
  let last_restart : Option ℚ :=
    (sleeper.find? (fun p => p.is_valid_for_restart)).bind (fun p => p.end_time)
  let cycle_start ← calcCycleStart limits entries now
  let cycle_entries := entries.filter (fun e => e.start_time ≥ cycle_start)
  let cycle_hours ← calcCycleHours cycle_entries
  let recs : List String :=
    if cycle_hours ≥ limits.cycle_hours * (9 / 10) then ["restart_immediate"]
    else if cycle_hours ≥ limits.cycle_hours * (8 / 10) then ["restart_soon"]
    else []
  Except.ok { last_restart := last_restart,
              time_since_restart_hours := last_restart.map (fun lr => (now - lr) / 3600),
              current_cycle_hours := cycle_hours,
              cycle_limit := limits.cycle_hours,
              cycle_progress_percent := cycle_hours / limits.cycle_hours * 100,
              recommendation_types := recs,
              optimal_restart_time :=
                if cycle_hours ≥ limits.cycle_hours * (7 / 10) then some (now + 3600)
                else none }

/-! ### The engine entry point -/

/-- `AdvancedHOSComplianceEngine.calculate_advanced_hos_status(log_entries,
current_time, team_driving_info)` for an engine built with `cycle_type`. -/
def calculate_advanced_hos_status (cycle_type : CycleType)
    (log_entries : List LogEntry) (now : ℚ) (team : Option TeamDrivingInfo) :
    Except PyError HOSStatus := do
  let limits := HOS_LIMITS cycle_type
  let sorted := sortBy (fun e => e.start_time) log_entries
  let cycle_start ← calcCycleStart limits sorted now
  let sleeper ← calcSleeperPeriods limits sorted now
  let cycle_entries := sorted.filter (fun e => e.start_time ≥ cycle_start)
  let hours_used ← calcCycleHours cycle_entries
  let hours_available := limits.cycle_hours - hours_used
  let violations ← checkAdvancedViolations cycle_entries now sleeper
  let consecutive := calcConsecutiveOffDuty sorted now
  let last_break := getLast30MinBreak sorted
  let can_drive ← canDriveAdvanced cycle_entries now violations team
  let can_be_on_duty ← canBeOnDutyAdvanced cycle_entries now violations team
  let needs_rest ← needsRestAdvanced cycle_entries now violations
  let analytics ← calcComplianceAnalytics sorted violations now
  let recs ← getRestartRecommendations limits sorted now sleeper
  Except.ok { can_drive := can_drive, can_be_on_duty := can_be_on_duty,
              needs_rest := needs_rest, hours_used_this_cycle := hours_used,
              hours_available := hours_available,
              consecutive_off_duty_hours := consecutive,
              last_30_min_break := last_break, violations := violations,
              cycle_type := cycle_type, cycle_start_date := cycle_start,
              sleeper_berth_periods := sleeper, team_driving_info := team,
              compliance_analytics := analytics, restart_recommendations := recs }

/-! ### Violation resolution workflow (`ViolationResolutionWorkflow`) -/

/-- `self.workflow_steps`: per-state action allow-lists. -/
def workflow_steps : ViolationStatus → List String
  | ViolationStatus.pending => ["acknowledge", "dispute", "escalate"]
  | ViolationStatus.in_review => ["approve", "reject", "request_info"]
  | ViolationStatus.disputed => ["review", "approve", "reject"]
  | ViolationStatus.escalated => ["review", "approve", "reject"]
  | ViolationStatus.resolved => ["reopen"]

/-- `resolve_violation(violation, resolution_notes, resolved_by, action)`:
a disallowed action raises `ValidationError` before any field is written;
the exception is caught and the method returns `False`.  Modelled as a pure
function returning the success flag and the (possibly updated) violation;
`timezone.now()` is the `now` argument. -/
def resolve_violation (v : Violation) (resolution_notes resolved_by : String)
    (now : ℚ) (action : String) : Bool × Violation :=
  if action ∈ workflow_steps v.status then
    (true, { v with resolution_notes := resolution_notes,
                    resolved_by := some resolved_by,
                    resolved_at := some now,
                    status := ViolationStatus.resolved })
  else
    (false, v)

/-- `escalate_violation(violation, escalation_reason)`: no allow-list check;
always mutates and returns `True`. -/
def escalate_violation (v : Violation) (escalation_reason : String) : Bool × Violation :=
  (true, { v with status := ViolationStatus.escalated,
                  escalation_level := v.escalation_level + 1,
                  resolution_notes :=
                    v.resolution_notes ++ "\nEscalated: " ++ escalation_reason })

/-! ### `validate_log_entry` (standalone utility)

The model covers entry dicts that carry the three keys, with `end_time`
possibly `None`; `start_time` and `duty_status` are present and well typed
(the duty status is a closed enum here, so the invalid-status branch of the
source cannot fire). -/

def validate_log_entry (e : LogEntry) : Bool × List String :=
  let errors :=
    (match e.end_time with
     | none => ["Missing required field: end_time"]
     | some _ => []) ++
    (match e.end_time with
     | some en => if e.start_time ≥ en then ["Start time must be before end time"] else []
     | none => [])
  (errors.isEmpty, errors)

/-! ### Specification-side view of split-berth marking

`pairQualifiesB` is the split test as a total Boolean (where the marking
loop would instead raise on a missing left end time); `pairAt l i` asks it
of the adjacent pair at positions `i, i+1`; `splitFlagSpec` is the flag the
loop leaves at position `i`; `markSpecAux` is the total mirror of
`markSplitAux` used to relate the two. -/

def pairQualifiesB (p q : SleeperBerthPeriod) : Bool :=
  match p.end_time with
  | some pe => splitCond pe p q
  | none => false

def pairAt (l : List SleeperBerthPeriod) (i : ℕ) : Bool :=
  match l.get? i, l.get? (i + 1) with
  | some p, some q => pairQualifiesB p q
  | _, _ => false

def splitFlagSpec (b0 : Bool) (l : List SleeperBerthPeriod) (i : ℕ) : Bool :=
  (if i = 0 then b0 else pairAt l (i - 1)) || pairAt l i

def markSpecAux (p : SleeperBerthPeriod) : List SleeperBerthPeriod → List SleeperBerthPeriod
  | [] => [p]
  | q :: rest =>
    if pairQualifiesB p q then
      { p with split_berth_period := true }
        :: markSpecAux { q with split_berth_period := true } rest
    else
      p :: markSpecAux q rest

/-! ## Helper lemmas -/

theorem except_bind_ok {ε α β : Type} {x : Except ε α} {f : α → Except ε β} {b : β}
    (h : x >>= f = Except.ok b) : ∃ a, x = Except.ok a ∧ f a = Except.ok b := by
  cases x with
  | ok a => exact ⟨a, rfl, h⟩
  | error e => exact Except.noConfusion h

theorem ok_bind {ε α β : Type} (a : α) (f : α → Except ε β) :
    (Except.ok a : Except ε α) >>= f = f a := rfl

theorem except_map_ok {ε α β : Type} {x : Except ε α} {f : α → β} {b : β}
    (h : x.map f = Except.ok b) : ∃ a, x = Except.ok a ∧ f a = b := by
  cases x with
  | ok a => exact ⟨a, rfl, by simpa [Except.map] using h⟩
  | error e => exact Except.noConfusion h

theorem pairQualifiesB_update_left (q x : SleeperBerthPeriod) (b : Bool) :
    pairQualifiesB { q with split_berth_period := b } x = pairQualifiesB q x := rfl

theorem pairAt_cons_succ (p : SleeperBerthPeriod) (l : List SleeperBerthPeriod) (i : ℕ) :
    pairAt (p :: l) (i + 1) = pairAt l i := rfl

theorem pairAt_cons_zero (p q : SleeperBerthPeriod) (l : List SleeperBerthPeriod) :
    pairAt (p :: q :: l) 0 = pairQualifiesB p q := rfl

theorem pairAt_single (p : SleeperBerthPeriod) : pairAt [p] 0 = false := rfl

theorem pairAt_cons_update (q : SleeperBerthPeriod) (b : Bool)
    (l : List SleeperBerthPeriod) (i : ℕ) :
    pairAt ({ q with split_berth_period := b } :: l) i = pairAt (q :: l) i := by
  cases i with
  | zero =>
    cases l with
    | nil => rfl
    | cons x xs => exact pairQualifiesB_update_left q x b
  | succ j => rfl

theorem insertSortedBy_of_le {α : Type} (key : α → ℚ) (e : α) (l : List α)
    (h : ∀ x ∈ l, key e ≤ key x) : insertSortedBy key e l = e :: l := by
  cases l with
  | nil => rfl
  | cons x xs =>
    rw [insertSortedBy, if_pos (h x (List.mem_cons_self x xs))]

theorem sortBy_of_pairwise {α : Type} (key : α → ℚ) (l : List α)
    (h : List.Pairwise (fun a b => key a ≤ key b) l) : sortBy key l = l := by
  induction l with
  | nil => rfl
  | cons x xs ih =>
    rw [sortBy, ih (List.pairwise_cons.mp h).2]
    exact insertSortedBy_of_le key x xs (List.pairwise_cons.mp h).1

/-- The fallible marking loop agrees with its total mirror whenever it
returns. -/
theorem markSplitAux_ok (rest : List SleeperBerthPeriod) :
    ∀ (p : SleeperBerthPeriod) (qs : List SleeperBerthPeriod),
      markSplitAux p rest = Except.ok qs → qs = markSpecAux p rest := by
  induction rest with
  | nil =>
    intro p qs h
    rw [markSplitAux] at h
    injection h with h2
    rw [← h2, markSpecAux]
  | cons q rest2 ih =>
    intro p qs h
    rw [markSplitAux] at h
    rw [markSpecAux]
    cases hpe : p.end_time with
    | none =>
      simp only [hpe] at h
      exact Except.noConfusion h
    | some pe =>
      simp only [hpe] at h
      have hq : pairQualifiesB p q = splitCond pe p q := by
        rw [pairQualifiesB, hpe]
      by_cases hc : splitCond pe p q = true
      · rw [if_pos hc] at h
        obtain ⟨r, hr, hrq⟩ := except_map_ok h
        rw [hq, if_pos hc, ← hrq, ih _ _ hr]
      · rw [if_neg hc] at h
        obtain ⟨r, hr, hrq⟩ := except_map_ok h
        rw [hq, if_neg hc, ← hrq, ih _ _ hr]

/-- Position-wise effect of the total marking pass: position `i` is flagged
exactly by the qualification of its adjacent pairs (the head's incoming flag
survives at position 0); no other field changes. -/
theorem markSpecAux_get (rest : List SleeperBerthPeriod) :
    ∀ (p : SleeperBerthPeriod), (∀ r ∈ rest, r.split_berth_period = false) →
      ∀ (i : ℕ), (markSpecAux p rest).get? i = ((p :: rest).get? i).map
        (fun x =>
          { x with split_berth_period := splitFlagSpec p.split_berth_period (p :: rest) i }) := by
  induction rest with
  | nil =>
    intro p _ i
    rw [markSpecAux]
    cases i with
    | zero =>
      show some p = some { p with split_berth_period := splitFlagSpec p.split_berth_period [p] 0 }
      rw [splitFlagSpec]
      simp [pairAt_single]
    | succ j => rfl
  | cons q rest2 ih =>
    intro p hflag i
    have hq0 : q.split_berth_period = false := hflag q (List.mem_cons_self q rest2)
    have hflag2 : ∀ r ∈ rest2, r.split_berth_period = false :=
      fun r hr => hflag r (List.mem_cons_of_mem q hr)
    rw [markSpecAux]
    by_cases hpq : pairQualifiesB p q = true
    · rw [if_pos hpq]
      cases i with
      | zero =>
        show some _ = some _
        rw [splitFlagSpec]
        simp [pairAt_cons_zero, hpq]
      | succ j =>
        rw [List.get?_cons_succ, List.get?_cons_succ, ih _ hflag2 j]
        cases j with
        | zero =>
          rw [splitFlagSpec, splitFlagSpec]
          simp [pairAt_cons_zero, pairAt_cons_succ, pairQualifiesB_update_left, hpq,
                pairAt_cons_update]
        | succ j2 =>
          rw [splitFlagSpec, splitFlagSpec]
          simp [pairAt_cons_succ, pairAt_cons_update]
    · rw [if_neg hpq]
      have hpq2 : pairQualifiesB p q = false := by
        cases hx : pairQualifiesB p q with
        | false => rfl
        | true => exact absurd hx hpq
      cases i with
      | zero =>
        show some p = some _
        rw [splitFlagSpec]
        simp [pairAt_cons_zero, hpq2]
      | succ j =>
        rw [List.get?_cons_succ, List.get?_cons_succ, ih _ hflag2 j]
        cases j with
        | zero =>
          rw [splitFlagSpec, splitFlagSpec]
          simp [pairAt_cons_zero, pairAt_cons_succ, hpq2, hq0]
        | succ j2 =>
          rw [splitFlagSpec, splitFlagSpec]
          simp [pairAt_cons_succ]

theorem insertSortedBy_mem {α : Type} (key : α → ℚ) (e : α) (l : List α) (a : α) :
    a ∈ insertSortedBy key e l ↔ a = e ∨ a ∈ l := by
  induction l with
  | nil => simp [insertSortedBy]
  | cons x xs ih =>
    rw [insertSortedBy]
    by_cases hc : key e ≤ key x
    · rw [if_pos hc]; simp
    · rw [if_neg hc]
      simp only [List.mem_cons, ih]
      tauto

theorem sortBy_mem {α : Type} (key : α → ℚ) (l : List α) (a : α) :
    a ∈ sortBy key l ↔ a ∈ l := by
  induction l with
  | nil => simp [sortBy]
  | cons x xs ih =>
    rw [sortBy, insertSortedBy_mem]
    simp [ih]

theorem buildSleeperPeriods_starts (limits : HOSLimits) (now : ℚ) (l : List LogEntry) :
    ∀ p ∈ buildSleeperPeriods limits now l, ∃ e ∈ l,
      e.duty_status = DutyStatus.sleeper_berth ∧ p.start_time = e.start_time := by
  induction l with
  | nil =>
    intro p hp
    rw [buildSleeperPeriods] at hp
    exact absurd hp (List.not_mem_nil p)
  | cons e rest ih =>
    intro p hp
    rw [buildSleeperPeriods] at hp
    by_cases hs : e.duty_status = DutyStatus.sleeper_berth
    · rw [if_pos hs] at hp
      rcases List.mem_cons.mp hp with hp | hp
      · exact ⟨e, List.mem_cons_self e rest, hs, by rw [hp]⟩
      · obtain ⟨e2, he2, h1, h2⟩ := ih p hp
        exact ⟨e2, List.mem_cons_of_mem e he2, h1, h2⟩
    · rw [if_neg hs] at hp
      obtain ⟨e2, he2, h1, h2⟩ := ih p hp
      exact ⟨e2, List.mem_cons_of_mem e he2, h1, h2⟩

theorem markSpecAux_starts (rest : List SleeperBerthPeriod) :
    ∀ p, (markSpecAux p rest).map (fun x => x.start_time)
      = (p :: rest).map (fun x => x.start_time) := by
  induction rest with
  | nil => intro p; rfl
  | cons q rest2 ih =>
    intro p
    rw [markSpecAux]
    by_cases hpq : pairQualifiesB p q = true
    · rw [if_pos hpq]
      simp only [List.map_cons]
      rw [ih]
      simp
    · rw [if_neg hpq]
      simp only [List.map_cons]
      rw [ih]
      simp

theorem validateSplit_starts_mem (ps qs : List SleeperBerthPeriod)
    (h : validateSplitSleeperBerth ps = Except.ok qs) :
    ∀ p ∈ qs, ∃ r ∈ ps, p.start_time = r.start_time := by
  rw [validateSplitSleeperBerth] at h
  by_cases hlen : ps.length < 2
  · rw [if_pos hlen] at h
    injection h with h2
    intro p hp
    exact ⟨p, h2 ▸ hp, rfl⟩
  · rw [if_neg hlen] at h
    cases hs : sortBy (fun p => p.start_time) ps with
    | nil =>
      rw [hs, markSplitPairs] at h
      injection h with h2
      intro p hp
      rw [← h2] at hp
      exact absurd hp (List.not_mem_nil p)
    | cons p0 rest =>
      rw [hs, markSplitPairs] at h
      have hqs := markSplitAux_ok rest p0 qs h
      intro p hp
      have hstart : p.start_time ∈ qs.map (fun x => x.start_time) :=
        List.mem_map_of_mem _ hp
      rw [hqs, markSpecAux_starts] at hstart
      obtain ⟨r, hr, hre⟩ := List.mem_map.mp hstart
      have hr2 : r ∈ sortBy (fun p => p.start_time) ps := by rw [hs]; exact hr
      exact ⟨r, (sortBy_mem _ ps r).mp hr2, hre.symm⟩

theorem calcSleeperPeriods_provenance (limits : HOSLimits) (l : List LogEntry) (now : ℚ)
    (sl : List SleeperBerthPeriod) (h : calcSleeperPeriods limits l now = Except.ok sl) :
    ∀ p ∈ sl, ∃ e ∈ l, e.duty_status = DutyStatus.sleeper_berth ∧
      p.start_time = e.start_time := by
  intro p hp
  obtain ⟨r, hr, hre⟩ := validateSplit_starts_mem _ _ h p hp
  obtain ⟨e, he, h1, h2⟩ := buildSleeperPeriods_starts limits now l r hr
  exact ⟨e, he, h1, by rw [hre, h2]⟩

theorem calcCycleStart_ge (limits : HOSLimits) (l : List LogEntry) (now : ℚ) (c : ℚ)
    (h : calcCycleStart limits l now = Except.ok c) :
    c ≥ now - limits.cycle_days * 86400 := by
  cases l with
  | nil =>
    rw [calcCycleStart] at h
    injection h with h2
    rw [← h2]
  | cons e rest =>
    rw [calcCycleStart] at h
    obtain ⟨found, hf, h2⟩ := except_bind_ok h
    injection h2 with h3
    rw [← h3]
    exact le_max_right _ _

theorem calcCycleStart_found (limits : HOSLimits) (l : List LogEntry) (now : ℚ) (c eE : ℚ)
    (h : calcCycleStart limits l now = Except.ok c)
    (hf : findRestart l l.reverse = Except.ok (some eE)) :
    c = max eE (now - limits.cycle_days * 86400) := by
  cases l with
  | nil =>
    rw [List.reverse_nil, findRestart] at hf
    injection hf with h2
    exact Option.noConfusion h2
  | cons e rest =>
    rw [calcCycleStart] at h
    obtain ⟨found, hf2, h2⟩ := except_bind_ok h
    have h3 := hf.symm.trans hf2
    injection h3 with h4
    rw [← h4] at h2
    injection h2 with h5
    exact h5.symm

theorem markSpecAux_length (rest : List SleeperBerthPeriod) :
    ∀ p, (markSpecAux p rest).length = rest.length + 1 := by
  induction rest with
  | nil => intro p; rfl
  | cons q rest2 ih =>
    intro p
    rw [markSpecAux]
    by_cases hpq : pairQualifiesB p q = true
    · rw [if_pos hpq]; simp [ih]
    · rw [if_neg hpq]; simp [ih]

/-- Positions forming a qualifying adjacent pair are both flagged. -/
theorem splitFlag_pair_marked (ps qs : List SleeperBerthPeriod)
    (hform : ∀ i, qs.get? i = (ps.get? i).map
      (fun x => { x with split_berth_period := splitFlagSpec false ps i })) :
    ∀ i p q, ps.get? i = some p → ps.get? (i + 1) = some q → pairQualifiesB p q = true →
      (qs.get? i).map (fun x => x.split_berth_period) = some true ∧
      (qs.get? (i + 1)).map (fun x => x.split_berth_period) = some true := by
  intro i p q hp hq hpq
  have hpi : pairAt ps i = true := by rw [pairAt, hp, hq]; exact hpq
  constructor
  · rw [hform i, hp]
    simp [splitFlagSpec, hpi]
  · rw [hform (i + 1), hq]
    simp [splitFlagSpec, hpi]

/-- A flagged position belongs to a qualifying adjacent pair. -/
theorem splitFlag_marked_pair (ps qs : List SleeperBerthPeriod)
    (hform : ∀ i, qs.get? i = (ps.get? i).map
      (fun x => { x with split_berth_period := splitFlagSpec false ps i })) :
    ∀ i x, qs.get? i = some x → x.split_berth_period = true →
      pairAt ps (i - 1) = true ∨ pairAt ps i = true := by
  intro i x hx hxs
  rw [hform i] at hx
  cases hy : ps.get? i with
  | none => rw [hy] at hx; exact Option.noConfusion hx
  | some y =>
    rw [hy] at hx
    simp only [Option.map] at hx
    injection hx with hx2
    have hF : splitFlagSpec false ps i = true := by
      rw [← hxs, ← hx2]
    rw [splitFlagSpec] at hF
    rcases Bool.or_eq_true_iff.mp hF with hF | hF
    · cases i with
      | zero => exact absurd hF (by simp)
      | succ j => rw [if_neg (Nat.succ_ne_zero j)] at hF; exact Or.inl hF
    · exact Or.inr hF

/-! ## Concrete inputs used in the theorems

All durations below are whole numbers of hours (or the dyadic 2025 s =
0.5625 h), so the float step in `Decimal(str(total_seconds() / 3600))` is
exact and the rational model reproduces the source values exactly. -/

/-- Five back-to-back 13-hour `OnDutyNotDriving` intervals ending at time 0:
65 on-duty hours, each interval under every per-interval limit. -/
def fiveThirteenHourShifts : List LogEntry :=
  [{ start_time := -234000, end_time := some (-187200), duty_status := DutyStatus.on_duty_not_driving },
   { start_time := -187200, end_time := some (-140400), duty_status := DutyStatus.on_duty_not_driving },
   { start_time := -140400, end_time := some (-93600), duty_status := DutyStatus.on_duty_not_driving },
   { start_time := -93600, end_time := some (-46800), duty_status := DutyStatus.on_duty_not_driving },
   { start_time := -46800, end_time := some 0, duty_status := DutyStatus.on_duty_not_driving }]

/-- A single continuous 12-hour `Driving` interval ending at time 0. -/
def twelveHourDrive : List LogEntry :=
  [{ start_time := -43200, end_time := some 0, duty_status := DutyStatus.driving }]

/-- A single 36-hour `OffDuty` interval from −72 h to −36 h. -/
def thirtySixHourOffDuty : LogEntry :=
  { start_time := -259200, end_time := some (-129600), duty_status := DutyStatus.off_duty }

/-- A `Driving` interval whose end precedes its start by one hour. -/
def negativeDurationEntry : LogEntry :=
  { start_time := 0, end_time := some (-3600), duty_status := DutyStatus.driving }

/-- A `Driving` interval with a missing (required) end time. -/
def openDrivingEntry : LogEntry :=
  { start_time := 0, end_time := none, duty_status := DutyStatus.driving }

/-- A `Driving` interval of 2025 seconds = 0.5625 h. -/
def oddSecondsEntry : LogEntry :=
  { start_time := 0, end_time := some 2025, duty_status := DutyStatus.driving }

/-- An already-resolved violation, as left by `resolve_violation`. -/
def resolvedViolation : Violation :=
  { violation_type := "no_30_min_break", severity := ViolationSeverity.major,
    occurred_at := 0, status := ViolationStatus.resolved,
    resolution_notes := "reviewed", resolved_by := some "admin", resolved_at := some 100 }

/-- A freshly detected violation in the default `PENDING` state. -/
def pendingViolation : Violation :=
  { violation_type := "invalid_34_hour_restart",
    severity := ViolationSeverity.critical, occurred_at := -7200 }

/-- The status the engine returns for an empty log at time 0 on the 70/8
cycle. -/
def emptyStatus : HOSStatus :=
  { can_drive := true, can_be_on_duty := true, needs_rest := false,
    hours_used_this_cycle := 0, hours_available := 70,
    consecutive_off_duty_hours := 0, last_30_min_break := none,
    violations := [], cycle_type := CycleType.seventy_eight,
    cycle_start_date := -691200, sleeper_berth_periods := [],
    team_driving_info := none,
    compliance_analytics := { },
    restart_recommendations := { cycle_limit := 70 } }

/-! ## C1 — conservation of cycle hours -/

/-- C1 counterexample: on the 60/7 cycle, 65 on-duty hours inside the window
(five 13-hour shifts, none breaching a per-interval rule, and under the
cycle checker's hard-coded 70.0 threshold) yield a returned `HOSStatus`
with `hours_available = −5 < 0`: the engine computes
`cycle_hours - hours_used` with no clamping at 0. -/
theorem hours_available_negative :
    (calculate_advanced_hos_status CycleType.sixty_seven fiveThirteenHourShifts 0 none).map
      (fun st => (st.hours_used_this_cycle, st.hours_available))
      = Except.ok ((65 : ℚ), (-5 : ℚ)) ∧ ((-5 : ℚ) < 0) := by decide

/-- C1 amended: for every evaluation that returns a status,
`hours_used_this_cycle + hours_available` equals the cycle's `cycle_hours`
exactly — but neither quantity is clamped at 0, so `hours_available` can be
negative. -/
theorem hours_conservation (ct : CycleType) (entries : List LogEntry) (now : ℚ)
    (team : Option TeamDrivingInfo) (st : HOSStatus)
    (h : calculate_advanced_hos_status ct entries now team = Except.ok st) :
    st.hours_used_this_cycle + st.hours_available = (HOS_LIMITS ct).cycle_hours := by
  unfold calculate_advanced_hos_status at h
  obtain ⟨cs, hcs, h⟩ := except_bind_ok h
  obtain ⟨sl, hsl, h⟩ := except_bind_ok h
  obtain ⟨hu, hhu, h⟩ := except_bind_ok h
  obtain ⟨vs, hvs, h⟩ := except_bind_ok h
  obtain ⟨cd, hcd, h⟩ := except_bind_ok h
  obtain ⟨cbd, hcbd, h⟩ := except_bind_ok h
  obtain ⟨nr, hnr, h⟩ := except_bind_ok h
  obtain ⟨an, han, h⟩ := except_bind_ok h
  obtain ⟨rc, hrc, h⟩ := except_bind_ok h
  cases h
  ring

theorem hours_conservation_witness :
    calculate_advanced_hos_status CycleType.seventy_eight [] 0 none = Except.ok emptyStatus ∧
    emptyStatus.hours_used_this_cycle + emptyStatus.hours_available
      = (HOS_LIMITS CycleType.seventy_eight).cycle_hours :=
  ⟨by decide, hours_conservation CycleType.seventy_eight [] 0 none emptyStatus (by decide)⟩

/-! ## C2 — the 12-hour driving interval -/

/-- C2: a single continuous 12-hour `Driving` interval does not produce a
`driving_over_11` violation with `duration_over = 1.00 h` and
`can_drive = false`; instead the whole evaluation raises `TypeError`,
because `_check_driving_limit_rule` builds
`duration_over=timedelta(hours=float(hours - max_hours))` where `hours` is a
`Decimal` and `max_hours` the float `11.0`, and Python does not subtract a
float from a `Decimal`.  No `HOSStatus` is returned at all. -/
theorem twelve_hour_drive_type_error :
    calculate_advanced_hos_status CycleType.seventy_eight twelveHourDrive 0 none
      = Except.error PyError.typeError := by decide

/-! ## C3 — the empty interval list -/

/-- C3: for the empty interval list (any evaluation time, any cycle type)
the engine returns `can_drive = true`, `can_be_on_duty = true`,
`needs_rest = false`, no violations, and `hours_available` equal to the
cycle's full `cycle_hours` — 70.00 on the 70/8 cycle. -/
theorem empty_log_status (ct : CycleType) (now : ℚ) :
    (calculate_advanced_hos_status ct [] now none).map
      (fun st => (st.can_drive, st.can_be_on_duty, st.needs_rest, st.violations,
                  st.hours_available))
      = Except.ok (true, true, false, ([] : List Violation), (HOS_LIMITS ct).cycle_hours) := by
  cases ct <;> rfl

/-! ## C4 — the 34-hour restart -/

/-- C4 counterexample: a single 36-hour continuous `OffDuty` interval with
nothing nested inside it does reset the cycle — the cycle start becomes its
end time (−129600) and `hours_used_this_cycle = 0.00` — but the interval is
not flagged `is_valid_for_restart = true` anywhere: the returned status's
`sleeper_berth_periods` list is empty, because that flag exists only on
periods derived from `SleeperBerth` intervals, never on `OffDuty` ones. -/
theorem off_duty_restart_not_flagged :
    (calculate_advanced_hos_status CycleType.seventy_eight [thirtySixHourOffDuty] 0 none).map
      (fun st => (st.cycle_start_date, st.hours_used_this_cycle, st.sleeper_berth_periods))
      = Except.ok ((-129600 : ℚ), (0 : ℚ), ([] : List SleeperBerthPeriod)) := by decide

/-- C4 amended: whenever the evaluation returns a status, (a) the cycle
start is never earlier than `now − cycle_days`; (b) if the reverse scan
finds a valid ≥ 34 h `OffDuty` restart ending at `eE`, the cycle start is
exactly `max eE (now − cycle_days)`; (c) `hours_used_this_cycle` is the
cycle-hours sum over exactly the intervals starting at or after the cycle
start (hence 0.00 when there are none); and (d) every sleeper-berth period
— the only carriers of `is_valid_for_restart` — stems from a
`SleeperBerth` interval, so the `OffDuty` restart interval itself is never
flagged. -/
theorem cycle_restart_amended (ct : CycleType) (entries : List LogEntry) (now : ℚ)
    (team : Option TeamDrivingInfo) (st : HOSStatus)
    (h : calculate_advanced_hos_status ct entries now team = Except.ok st) :
    st.cycle_start_date ≥ now - (HOS_LIMITS ct).cycle_days * 86400 ∧
    (∀ eE, findRestart (sortBy (fun e => e.start_time) entries)
        (sortBy (fun e => e.start_time) entries).reverse = Except.ok (some eE) →
      st.cycle_start_date = max eE (now - (HOS_LIMITS ct).cycle_days * 86400)) ∧
    calcCycleHours ((sortBy (fun e => e.start_time) entries).filter
        (fun e => e.start_time ≥ st.cycle_start_date)) = Except.ok st.hours_used_this_cycle ∧
    (∀ p ∈ st.sleeper_berth_periods, ∃ e ∈ entries,
      e.duty_status = DutyStatus.sleeper_berth ∧ p.start_time = e.start_time) := by
  unfold calculate_advanced_hos_status at h
  obtain ⟨cs, hcs, h⟩ := except_bind_ok h
  obtain ⟨sl, hsl, h⟩ := except_bind_ok h
  obtain ⟨hu, hhu, h⟩ := except_bind_ok h
  obtain ⟨vs, hvs, h⟩ := except_bind_ok h
  obtain ⟨cd, hcd, h⟩ := except_bind_ok h
  obtain ⟨cbd, hcbd, h⟩ := except_bind_ok h
  obtain ⟨nr, hnr, h⟩ := except_bind_ok h
  obtain ⟨an, han, h⟩ := except_bind_ok h
  obtain ⟨rc, hrc, h⟩ := except_bind_ok h
  cases h
  refine ⟨calcCycleStart_ge _ _ _ _ hcs, ?_, hhu, ?_⟩
  · intro eE hfound
    exact calcCycleStart_found _ _ _ _ _ hcs hfound
  · intro p hp
    obtain ⟨e, he, h1, h2⟩ := calcSleeperPeriods_provenance _ _ _ _ hsl p hp
    exact ⟨e, (sortBy_mem _ entries e).mp he, h1, h2⟩

/-- The status the engine returns for the single 36-hour off-duty interval
at time 0 on the 70/8 cycle. -/
def restartStatus : HOSStatus :=
  { can_drive := true, can_be_on_duty := true, needs_rest := false,
    hours_used_this_cycle := 0, hours_available := 70,
    consecutive_off_duty_hours := 36, last_30_min_break := some (-129600),
    violations := [], cycle_type := CycleType.seventy_eight,
    cycle_start_date := -129600, sleeper_berth_periods := [],
    team_driving_info := none,
    compliance_analytics :=
      { restart_frequency := 7 / 4, average_daily_hours := 36,
        risk_factors := ["High daily hours"] },
    restart_recommendations := { cycle_limit := 70 } }

theorem cycle_restart_amended_witness :
    calculate_advanced_hos_status CycleType.seventy_eight [thirtySixHourOffDuty] 0 none
      = Except.ok restartStatus ∧
    (restartStatus.cycle_start_date ≥ 0 - (HOS_LIMITS CycleType.seventy_eight).cycle_days * 86400 ∧
     (∀ eE, findRestart (sortBy (fun e => e.start_time) [thirtySixHourOffDuty])
         (sortBy (fun e => e.start_time) [thirtySixHourOffDuty]).reverse = Except.ok (some eE) →
       restartStatus.cycle_start_date
         = max eE (0 - (HOS_LIMITS CycleType.seventy_eight).cycle_days * 86400)) ∧
     calcCycleHours ((sortBy (fun e => e.start_time) [thirtySixHourOffDuty]).filter
         (fun e => e.start_time ≥ restartStatus.cycle_start_date))
       = Except.ok restartStatus.hours_used_this_cycle ∧
     (∀ p ∈ restartStatus.sleeper_berth_periods, ∃ e ∈ [thirtySixHourOffDuty],
       e.duty_status = DutyStatus.sleeper_berth ∧ p.start_time = e.start_time)) :=
  ⟨by decide,
   cycle_restart_amended CycleType.seventy_eight [thirtySixHourOffDuty] 0 none
     restartStatus (by decide)⟩

/-! ## C5 — split sleeper-berth marking -/

/-- C5: for a start-sorted list of sleeper periods with clear flags (exactly
what `_calculate_sleeper_berth_periods` builds), `_validate_split_sleeper_berth`
preserves length and every field except the flag, and flags position `i`
exactly when one of its adjacent pairs qualifies — gap `≤ 24 h`, both legs
`≥ 2 h`, combined `≥ 8 h` (`pairQualifiesB`): a qualifying adjacent pair is
marked on both periods, a period in no qualifying adjacent pair stays
unmarked, and only adjacent pairs are consulted. -/
theorem split_berth_marking (ps qs : List SleeperBerthPeriod)
    (hsorted : List.Pairwise (fun a b => a.start_time ≤ b.start_time) ps)
    (hflag : ∀ p ∈ ps, p.split_berth_period = false)
    (h : validateSplitSleeperBerth ps = Except.ok qs) :
    qs.length = ps.length ∧
    (∀ i, qs.get? i = (ps.get? i).map
      (fun x => { x with split_berth_period := splitFlagSpec false ps i })) ∧
    (∀ i p q, ps.get? i = some p → ps.get? (i + 1) = some q → pairQualifiesB p q = true →
      (qs.get? i).map (fun x => x.split_berth_period) = some true ∧
      (qs.get? (i + 1)).map (fun x => x.split_berth_period) = some true) ∧
    (∀ i x, qs.get? i = some x → x.split_berth_period = true →
      pairAt ps (i - 1) = true ∨ pairAt ps i = true) := by
  rw [validateSplitSleeperBerth] at h
  by_cases hlen : ps.length < 2
  · rw [if_pos hlen] at h
    injection h with h2
    have hform : ∀ i, qs.get? i = (ps.get? i).map
        (fun x => { x with split_berth_period := splitFlagSpec false ps i }) := by
      cases ps with
      | nil => intro i; rw [← h2]; cases i <;> rfl
      | cons p rest =>
        cases rest with
        | nil =>
          intro i
          rw [← h2]
          cases i with
          | zero =>
            show some p = some _
            rw [splitFlagSpec, ← hflag p (List.mem_cons_self p [])]
            simp [pairAt_single]
          | succ j => rfl
        | cons q rest2 => simp at hlen; omega
    exact ⟨by rw [← h2], hform, splitFlag_pair_marked ps qs hform,
           splitFlag_marked_pair ps qs hform⟩
  · rw [if_neg hlen, sortBy_of_pairwise _ _ hsorted] at h
    cases ps with
    | nil => exact absurd (by simp) hlen
    | cons p rest =>
      rw [markSplitPairs] at h
      have hqs := markSplitAux_ok rest p qs h
      have hb0 : p.split_berth_period = false := hflag p (List.mem_cons_self p rest)
      have hflagrest : ∀ r ∈ rest, r.split_berth_period = false :=
        fun r hr => hflag r (List.mem_cons_of_mem p hr)
      have hform : ∀ i, qs.get? i = ((p :: rest).get? i).map
          (fun x =>
            { x with split_berth_period := splitFlagSpec false (p :: rest) i }) := by
        intro i
        rw [hqs, markSpecAux_get rest p hflagrest i, hb0]
      refine ⟨?_, hform, splitFlag_pair_marked _ qs hform, splitFlag_marked_pair _ qs hform⟩
      rw [hqs, markSpecAux_length]
      rfl

/-- The spec example's first sleeper period: 3 hours. -/
def sleeperThreeHour : SleeperBerthPeriod :=
  { start_time := 0, end_time := some 10800, duration_hours := 3, consecutive_hours := 3 }

/-- The spec example's second sleeper period: 5 hours, starting 1 h after
the first ends (gap ≤ 24 h, combined 8 h). -/
def sleeperFiveHour : SleeperBerthPeriod :=
  { start_time := 14400, end_time := some 32400, duration_hours := 5, consecutive_hours := 5 }

/-- C5 witness: the 3 h + 5 h pair with a 1-hour gap is marked on both
periods. -/
theorem split_berth_marking_witness :
    validateSplitSleeperBerth [sleeperThreeHour, sleeperFiveHour] =
      Except.ok [{ sleeperThreeHour with split_berth_period := true },
                 { sleeperFiveHour with split_berth_period := true }] ∧
    (([{ sleeperThreeHour with split_berth_period := true },
       { sleeperFiveHour with split_berth_period := true }]
        : List SleeperBerthPeriod).length
        = ([sleeperThreeHour, sleeperFiveHour] : List SleeperBerthPeriod).length ∧
     (∀ i, ([{ sleeperThreeHour with split_berth_period := true },
             { sleeperFiveHour with split_berth_period := true }]
              : List SleeperBerthPeriod).get? i
        = (([sleeperThreeHour, sleeperFiveHour] : List SleeperBerthPeriod).get? i).map
          (fun x => { x with split_berth_period :=
                        splitFlagSpec false [sleeperThreeHour, sleeperFiveHour] i })) ∧
     (∀ i p q, ([sleeperThreeHour, sleeperFiveHour] : List SleeperBerthPeriod).get? i = some p →
        ([sleeperThreeHour, sleeperFiveHour] : List SleeperBerthPeriod).get? (i + 1) = some q →
        pairQualifiesB p q = true →
        (([{ sleeperThreeHour with split_berth_period := true },
            { sleeperFiveHour with split_berth_period := true }]
             : List SleeperBerthPeriod).get? i).map
          (fun x => x.split_berth_period) = some true ∧
        (([{ sleeperThreeHour with split_berth_period := true },
            { sleeperFiveHour with split_berth_period := true }]
             : List SleeperBerthPeriod).get? (i + 1)).map
          (fun x => x.split_berth_period) = some true) ∧
     (∀ i x, ([{ sleeperThreeHour with split_berth_period := true },
               { sleeperFiveHour with split_berth_period := true }]
                : List SleeperBerthPeriod).get? i = some x →
        x.split_berth_period = true →
        pairAt [sleeperThreeHour, sleeperFiveHour] (i - 1) = true ∨
        pairAt [sleeperThreeHour, sleeperFiveHour] i = true)) :=
  ⟨by decide,
   split_berth_marking [sleeperThreeHour, sleeperFiveHour]
     [{ sleeperThreeHour with split_berth_period := true },
      { sleeperFiveHour with split_berth_period := true }]
     (by decide) (by decide) (by decide)⟩

/-! ## C6 — workflow allow-lists -/

/-- C6 counterexample: `escalate_violation` performs no allow-list check at
all: applied to a `RESOLVED` violation — whose allow-list `["reopen"]` does
not contain `escalate` — it still succeeds and mutates the violation
(status, escalation level and notes), instead of failing with no mutation. -/
theorem escalate_bypasses_allowlist :
    "escalate" ∉ workflow_steps resolvedViolation.status ∧
    (escalate_violation resolvedViolation "driver dispute unresolved").1 = true ∧
    (escalate_violation resolvedViolation "driver dispute unresolved").2 ≠ resolvedViolation := by
  decide

/-- C6 amended: the allow-list check guards only `resolve_violation`: there a
disallowed action fails (the raised `ValidationError` is caught and `False`
returned) with no field mutated, `resolve` is not in `PENDING`'s allow-list
while `acknowledge` and `escalate` are, and both of those succeed from
`PENDING`; `escalate_violation`, however, bypasses the table entirely. -/
theorem resolve_violation_allowlist (v : Violation) (notes b : String) (now : ℚ)
    (action : String) (h : action ∉ workflow_steps v.status) :
    resolve_violation v notes b now action = (false, v) ∧
    "resolve" ∉ workflow_steps ViolationStatus.pending ∧
    "acknowledge" ∈ workflow_steps ViolationStatus.pending ∧
    "escalate" ∈ workflow_steps ViolationStatus.pending ∧
    (v.status = ViolationStatus.pending →
      (resolve_violation v notes b now "acknowledge").1 = true ∧
      (resolve_violation v notes b now "escalate").1 = true) := by
  refine ⟨?_, by decide, by decide, by decide, ?_⟩
  · unfold resolve_violation
    rw [if_neg h]
  · intro hst
    constructor <;> (unfold resolve_violation; rw [hst, if_pos (by decide)])

theorem resolve_violation_allowlist_witness :
    ("resolve" ∉ workflow_steps pendingViolation.status) ∧
    (resolve_violation pendingViolation "n" "admin" 0 "resolve" = (false, pendingViolation) ∧
     "resolve" ∉ workflow_steps ViolationStatus.pending ∧
     "acknowledge" ∈ workflow_steps ViolationStatus.pending ∧
     "escalate" ∈ workflow_steps ViolationStatus.pending ∧
     (pendingViolation.status = ViolationStatus.pending →
       (resolve_violation pendingViolation "n" "admin" 0 "acknowledge").1 = true ∧
       (resolve_violation pendingViolation "n" "admin" 0 "escalate").1 = true)) :=
  ⟨by decide, resolve_violation_allowlist pendingViolation "n" "admin" 0 "resolve" (by decide)⟩

/-! ## C7 — no input validation in the evaluation -/

/-- C7 counterexample: an interval with `end < start` (one hour negative
duration) does not fail the evaluation with a typed `InvalidLogData`: the
engine returns a full `HOSStatus` computed from the malformed interval,
with `hours_used_this_cycle = −1.00` and no violations. -/
theorem malformed_entry_silent_success :
    (calculate_advanced_hos_status CycleType.seventy_eight [negativeDurationEntry] 0 none).map
      (fun st => (st.hours_used_this_cycle, st.violations))
      = Except.ok ((-1 : ℚ), ([] : List Violation)) := by decide

/-- C7 amended: the evaluation performs no input validation.  An interval
with `end <= start` is processed silently (counterexample above); a missing
required end time makes the evaluation raise an untyped `TypeError`
(`None - datetime`), not a typed `InvalidLogData`; the typed checks live
only in the standalone utility `validate_log_entry`, which the evaluation
never calls and which does flag both malformed inputs. -/
theorem engine_skips_validation :
    calculate_advanced_hos_status CycleType.seventy_eight [openDrivingEntry] 3600 none
      = Except.error PyError.typeError ∧
    validate_log_entry negativeDurationEntry
      = (false, ["Start time must be before end time"]) ∧
    validate_log_entry openDrivingEntry
      = (false, ["Missing required field: end_time"]) := by decide

/-! ## C8 — elapsed-hours arithmetic -/

/-- C8 counterexample: a 2025-second driving interval yields the elapsed
hours 2025/3600 = 0.5625 — a value with four fractional decimal digits
(its hundredfold is not an integer), so elapsed hours are not fixed-point
with 2 fractional digits.  (At this input the float division
`total_seconds() / 3600` is exact — 0.5625 is dyadic — so the rational
model reproduces the source's `Decimal('0.5625')` exactly; nor is the
value computed without passing through binary floating point: the source
forms it as `Decimal(str(duration.total_seconds() / 3600))`.) -/
theorem elapsed_hours_not_two_digits :
    calcCycleHours [oddSecondsEntry] = Except.ok (9 / 16) ∧
    ((9 / 16 : ℚ) * 100).den ≠ 1 := by decide

/-- C8 amended: an elapsed-hours quantity is the raw quotient
`(end − start) / 3600` of the float seconds value, converted to `Decimal`
via its string rendering, with no quantization to 2 fractional digits —
both in the cycle-hours total and in sleeper-berth durations. -/
theorem elapsed_hours_raw_quotient (s e now : ℚ) :
    calcCycleHours [{ start_time := s, end_time := some e,
                      duty_status := DutyStatus.driving }]
      = Except.ok ((e - s) / 3600) ∧
    (calcSleeperPeriods (HOS_LIMITS CycleType.seventy_eight)
        [{ start_time := s, end_time := some e,
           duty_status := DutyStatus.sleeper_berth }] now).map
      (fun ps => ps.map (fun p => p.duration_hours))
      = Except.ok [(e - s) / 3600] := by
  constructor
  · simp [calcCycleHours, Except.map]
  · rfl

/-! ## C10 — successful workflow actions resolve uniformly -/

/-- C10: whenever the requested action is in the current status's allow-list,
`resolve_violation` succeeds and uniformly stamps `resolution_notes`,
`resolved_by`, `resolved_at` and sets the status to `RESOLVED` — whatever
the action was. -/
theorem resolve_violation_success (v : Violation) (notes b : String) (now : ℚ)
    (action : String) (h : action ∈ workflow_steps v.status) :
    resolve_violation v notes b now action =
      (true, { v with resolution_notes := notes, resolved_by := some b,
                      resolved_at := some now, status := ViolationStatus.resolved }) := by
  unfold resolve_violation
  rw [if_pos h]

/-! ## C9 — the can-drive decision -/

/-- C9: whenever the two hour totals compute (their entries well formed),
`can_drive` is `false` exactly when a critical violation is present, or the
team-driving info's active driver is not `DRIVER_1` (the role the engine
evaluates), or driving-hours-since-break ≥ 11, or
on-duty-hours-since-10-hour-break ≥ 14; and `true` otherwise. -/
theorem can_drive_advanced_spec (cycle_entries : List LogEntry) (now : ℚ)
    (violations : List Violation) (team : Option TeamDrivingInfo) (dh oh : ℚ)
    (hdh : calcDrivingHoursSinceBreak cycle_entries = Except.ok dh)
    (hoh : calcOnDutyHoursSinceBreak cycle_entries now = Except.ok oh) :
    (canDriveAdvanced cycle_entries now violations team = Except.ok false ↔
      ((∃ v ∈ violations, v.severity = ViolationSeverity.critical) ∨
       (∃ t, team = some t ∧ t.current_driver ≠ TeamDrivingRole.driver_1) ∨
       dh ≥ 11 ∨ oh ≥ 14)) ∧
    (canDriveAdvanced cycle_entries now violations team = Except.ok true ↔
      ¬ ((∃ v ∈ violations, v.severity = ViolationSeverity.critical) ∨
         (∃ t, team = some t ∧ t.current_driver ≠ TeamDrivingRole.driver_1) ∨
         dh ≥ 11 ∨ oh ≥ 14)) := by
  have hcrit : (violations.any (fun v => v.severity == ViolationSeverity.critical) = true) ↔
      (∃ v ∈ violations, v.severity = ViolationSeverity.critical) := by
    simp [List.any_eq_true]
  have hneq1 : (Except.ok false : Except PyError Bool) ≠ Except.ok true := by decide
  have hneq2 : (Except.ok true : Except PyError Bool) ≠ Except.ok false := by decide
  by_cases hb1 : (∃ v ∈ violations, v.severity = ViolationSeverity.critical)
  case pos =>
    have hany := hcrit.mpr hb1
    have he : canDriveAdvanced cycle_entries now violations team = Except.ok false := by
      unfold canDriveAdvanced; simp [hany]
    rw [he]
    exact ⟨iff_of_true rfl (Or.inl hb1), iff_of_false hneq1 (not_not_intro (Or.inl hb1))⟩
  case neg =>
    have hany : violations.any (fun v => v.severity == ViolationSeverity.critical) = false := by
      cases hx : violations.any (fun v => v.severity == ViolationSeverity.critical) with
      | false => rfl
      | true => exact absurd (hcrit.mp hx) hb1
    cases team with
    | none =>
      have hnt : ¬ (∃ t, (none : Option TeamDrivingInfo) = some t ∧
          t.current_driver ≠ TeamDrivingRole.driver_1) := by
        rintro ⟨t, ht, _⟩; exact Option.noConfusion ht
      by_cases h3 : dh ≥ 11
      · have he : canDriveAdvanced cycle_entries now violations none = Except.ok false := by
          unfold canDriveAdvanced; simp [hany, hdh, ok_bind, h3]
        rw [he]
        have hR : (∃ v ∈ violations, v.severity = ViolationSeverity.critical) ∨
            (∃ t, (none : Option TeamDrivingInfo) = some t ∧
              t.current_driver ≠ TeamDrivingRole.driver_1) ∨
            dh ≥ 11 ∨ oh ≥ 14 := Or.inr (Or.inr (Or.inl h3))
        exact ⟨iff_of_true rfl hR, iff_of_false hneq1 (not_not_intro hR)⟩
      · by_cases h4 : oh ≥ 14
        · have he : canDriveAdvanced cycle_entries now violations none = Except.ok false := by
            unfold canDriveAdvanced; simp [hany, hdh, hoh, ok_bind, h3, h4]
          rw [he]
          have hR : (∃ v ∈ violations, v.severity = ViolationSeverity.critical) ∨
              (∃ t, (none : Option TeamDrivingInfo) = some t ∧
                t.current_driver ≠ TeamDrivingRole.driver_1) ∨
              dh ≥ 11 ∨ oh ≥ 14 := Or.inr (Or.inr (Or.inr h4))
          exact ⟨iff_of_true rfl hR, iff_of_false hneq1 (not_not_intro hR)⟩
        · have he : canDriveAdvanced cycle_entries now violations none = Except.ok true := by
            unfold canDriveAdvanced; simp [hany, hdh, hoh, ok_bind, h3, h4]
          rw [he]
          have hnR : ¬ ((∃ v ∈ violations, v.severity = ViolationSeverity.critical) ∨
              (∃ t, (none : Option TeamDrivingInfo) = some t ∧
                t.current_driver ≠ TeamDrivingRole.driver_1) ∨
              dh ≥ 11 ∨ oh ≥ 14) := by
            rintro (hR | hR | hR | hR)
            · exact hb1 hR
            · exact hnt hR
            · exact h3 hR
            · exact h4 hR
          exact ⟨iff_of_false hneq2 hnR, iff_of_true rfl hnR⟩
    | some t =>
      by_cases hd1 : t.current_driver = TeamDrivingRole.driver_1
      · have hnt : ¬ (∃ t2, (some t : Option TeamDrivingInfo) = some t2 ∧
            t2.current_driver ≠ TeamDrivingRole.driver_1) := by
          rintro ⟨t2, ht2, hne⟩; cases ht2; exact hne hd1
        by_cases h3 : dh ≥ 11
        · have he : canDriveAdvanced cycle_entries now violations (some t) = Except.ok false := by
            unfold canDriveAdvanced; simp [hany, hd1, hdh, ok_bind, h3]
          rw [he]
          have hR : (∃ v ∈ violations, v.severity = ViolationSeverity.critical) ∨
              (∃ t2, (some t : Option TeamDrivingInfo) = some t2 ∧
                t2.current_driver ≠ TeamDrivingRole.driver_1) ∨
              dh ≥ 11 ∨ oh ≥ 14 := Or.inr (Or.inr (Or.inl h3))
          exact ⟨iff_of_true rfl hR, iff_of_false hneq1 (not_not_intro hR)⟩
        · by_cases h4 : oh ≥ 14
          · have he : canDriveAdvanced cycle_entries now violations (some t) = Except.ok false := by
              unfold canDriveAdvanced; simp [hany, hd1, hdh, hoh, ok_bind, h3, h4]
            rw [he]
            have hR : (∃ v ∈ violations, v.severity = ViolationSeverity.critical) ∨
                (∃ t2, (some t : Option TeamDrivingInfo) = some t2 ∧
                  t2.current_driver ≠ TeamDrivingRole.driver_1) ∨
                dh ≥ 11 ∨ oh ≥ 14 := Or.inr (Or.inr (Or.inr h4))
            exact ⟨iff_of_true rfl hR, iff_of_false hneq1 (not_not_intro hR)⟩
          · have he : canDriveAdvanced cycle_entries now violations (some t) = Except.ok true := by
              unfold canDriveAdvanced; simp [hany, hd1, hdh, hoh, ok_bind, h3, h4]
            rw [he]
            have hnR : ¬ ((∃ v ∈ violations, v.severity = ViolationSeverity.critical) ∨
                (∃ t2, (some t : Option TeamDrivingInfo) = some t2 ∧
                  t2.current_driver ≠ TeamDrivingRole.driver_1) ∨
                dh ≥ 11 ∨ oh ≥ 14) := by
              rintro (hR | hR | hR | hR)
              · exact hb1 hR
              · exact hnt hR
              · exact h3 hR
              · exact h4 hR
            exact ⟨iff_of_false hneq2 hnR, iff_of_true rfl hnR⟩
      · have he : canDriveAdvanced cycle_entries now violations (some t) = Except.ok false := by
          unfold canDriveAdvanced; simp [hany, hd1]
        rw [he]
        have hR : (∃ v ∈ violations, v.severity = ViolationSeverity.critical) ∨
            (∃ t2, (some t : Option TeamDrivingInfo) = some t2 ∧
              t2.current_driver ≠ TeamDrivingRole.driver_1) ∨
            dh ≥ 11 ∨ oh ≥ 14 :=
          Or.inr (Or.inl ⟨t, rfl, hd1⟩)
        exact ⟨iff_of_true rfl hR, iff_of_false hneq1 (not_not_intro hR)⟩

/-- C9 witness: with no entries and no violations but a team whose active
driver is `DRIVER_2`, the engine refuses driving. -/
theorem can_drive_advanced_spec_witness :
    calcDrivingHoursSinceBreak [] = Except.ok 0 ∧
    calcOnDutyHoursSinceBreak [] 0 = Except.ok 0 ∧
    canDriveAdvanced [] 0 []
      (some { team_id := "t1", driver_1_id := "a", driver_2_id := "b",
              current_driver := TeamDrivingRole.driver_2 }) = Except.ok false :=
  ⟨by decide, by decide,
   (can_drive_advanced_spec [] 0 []
      (some { team_id := "t1", driver_1_id := "a", driver_2_id := "b",
              current_driver := TeamDrivingRole.driver_2 }) 0 0
      (by decide) (by decide)).1.mpr
     (Or.inr (Or.inl ⟨_, rfl, by decide⟩))⟩

/-- C10 witness: `acknowledge` applied to a `PENDING` violation leaves it
`RESOLVED`, not `IN_REVIEW`. -/
theorem resolve_violation_success_witness :
    ("acknowledge" ∈ workflow_steps pendingViolation.status) ∧
    resolve_violation pendingViolation "reviewed" "admin" 100 "acknowledge" =
      (true, { pendingViolation with resolution_notes := "reviewed",
                                     resolved_by := some "admin",
                                     resolved_at := some 100,
                                     status := ViolationStatus.resolved }) :=
  ⟨by decide,
   resolve_violation_success pendingViolation "reviewed" "admin" 100 "acknowledge" (by decide)⟩

end HOS
